import Mathlib

/-!
Shallow embedding of the commercial-platform service (`src/server.js`) and
proofs about the claims of its specification.

Modelling conventions:
* JavaScript numbers are modelled as rationals (`ℚ`).  The one place where the
  JavaScript rule `undefined + number = NaN` is observable
  (`RevenueManager.updateRevenue`) uses an explicit `JsNum` type with a `nan`
  element.
* `Math.random()` draws are passed in as explicit arguments (rational draws in
  `[0,1)` where a probability threshold is compared, or natural-number oracles
  where the draw only selects an index); every theorem quantifies over them.
* `uuidv4()` and `Date.now()` results are passed in as explicit arguments.
* JavaScript `Map`s and plain objects used as dictionaries are modelled as
  association lists (`List (String × _)`) with `mapGet`, `mapUpdate` and
  `setKey`; in-place mutation of a stored object is modelled by rebuilding the
  state with the updated entry.
* A JavaScript `throw` is modelled by returning `(.error e, st)` with the state
  `st` unchanged; in every method modelled here the `throw` (or the implicit
  `TypeError` from a property access on `undefined`) happens before any
  mutation, so the unchanged state is faithful.
-/

inductive JsError where
  | thrown (msg : String)
  | typeError
  deriving Repr, DecidableEq

/-- `Map.get(key)` / object property lookup on an association list. -/

def mapGet {α : Type} : List (String × α) → String → Option α
  | [], _ => none
  | (k, v) :: xs, key => if key = k then some v else mapGet xs key

/-- In-place mutation of the object stored under an existing key of a `Map`. -/

def mapUpdate {α : Type} : List (String × α) → String → α → List (String × α)
  | [], _, _ => []
  | (k, w) :: xs, key, v =>
    if k = key then (key, v) :: mapUpdate xs key v
    else (k, w) :: mapUpdate xs key v

/-! ## MarketplaceManager (`src/server.js` lines 101–182) -/

structure MarketCategory where
  basePrice : ℚ
  royalty : ℚ
  deriving Repr, DecidableEq

/-- The fixed `this.categories` table of `MarketplaceManager`. -/

def categories : List (String × MarketCategory) :=
  [("cosmetics", ⟨4.99, 0.3⟩), ("equipment", ⟨9.99, 0.25⟩),
   ("boosts", ⟨2.99, 0.4⟩), ("bundles", ⟨19.99, 0.2⟩),
   ("premium", ⟨49.99, 0.15⟩)]

structure Listing where
  id : String
  sellerId : String
  category : String
  price : ℚ
  status : String
  views : ℕ
  purchases : ℕ
  revenue : ℚ
  deriving Repr, DecidableEq

structure MarketplaceTransaction where
  id : String
  listingId : String
  buyerId : String
  sellerId : String
  amount : ℚ
  currency : String
  paymentMethod : String
  status : String
  royalty : ℚ
  deriving Repr, DecidableEq

structure MarketplaceManager where
  listings : List (String × Listing)
  transactions : List MarketplaceTransaction
  deriving Repr, DecidableEq

/-- `MarketplaceManager.createListing` (listing data restricted to the fields the
platform reads: `sellerId`, `category`, `price`). -/

def createListing (m : MarketplaceManager) (newId sellerId category : String)
    (price : ℚ) : Listing × MarketplaceManager :=
  let listing : Listing :=
    { id := newId, sellerId := sellerId, category := category, price := price,
      status := "active", views := 0, purchases := 0, revenue := 0 }
  (listing, { m with listings := m.listings ++ [(newId, listing)] })

/-- `MarketplaceManager.purchaseListing`.  A missing listing throws
`Error('Listing not found')`; a listing whose `category` is not a key of
`this.categories` makes `this.categories[listing.category].royalty` throw a
`TypeError` (property access on `undefined`), before any state is mutated. -/

def purchaseListing (m : MarketplaceManager)
    (listingId buyerId paymentMethod txId : String) :
    Except JsError MarketplaceTransaction × MarketplaceManager :=
  match mapGet m.listings listingId with
  | none => (.error (.thrown "Listing not found"), m)
  | some listing =>
    match mapGet categories listing.category with
    | none => (.error .typeError, m)
    | some cat =>
      let t : MarketplaceTransaction :=
        { id := txId, listingId := listingId, buyerId := buyerId,
          sellerId := listing.sellerId, amount := listing.price,
          currency := "USD", paymentMethod := paymentMethod,
          status := "completed", royalty := listing.price * cat.royalty }
      let listing' : Listing :=
        { listing with purchases := listing.purchases + 1,
                       revenue := listing.revenue + t.amount }
      (.ok t,
       { m with transactions := m.transactions ++ [t],
                listings := mapUpdate m.listings listingId listing' })

/-! ## PaymentProcessor (`src/server.js` lines 184–227) -/

structure PaymentRefund where
  id : String
  originalTransactionId : String
  amount : ℚ
  reason : String
  status : String
  deriving Repr, DecidableEq

structure PaymentTransaction where
  id : String
  amount : ℚ
  currency : String
  method : String
  status : String
  refund : Option PaymentRefund
  deriving Repr, DecidableEq

structure PaymentProcessor where
  transactions : List PaymentTransaction
  deriving Repr, DecidableEq

/-- `this.transactions.find(t => t.id === transactionId)`. -/

def findTransaction : List PaymentTransaction → String → Option PaymentTransaction
  | [], _ => none
  | t :: ts, tid => if t.id = tid then some t else findTransaction ts tid

/-- Mutation `transaction.refund = refund` on the first transaction whose id
matches (the one returned by `find`). -/

def attachRefund : List PaymentTransaction → String → PaymentRefund →
    List PaymentTransaction
  | [], _, _ => []
  | t :: ts, tid, r =>
    if t.id = tid then { t with refund := some r } :: ts
    else t :: attachRefund ts tid r

/-- `PaymentProcessor.refundTransaction`. -/

def refundTransaction (p : PaymentProcessor) (transactionId reason refundId : String) :
    Except JsError PaymentRefund × PaymentProcessor :=
  match findTransaction p.transactions transactionId with
  | none => (.error (.thrown "Transaction not found"), p)
  | some t =>
    let refund : PaymentRefund :=
      { id := refundId, originalTransactionId := transactionId,
        amount := t.amount, reason := reason, status := "completed" }
    (.ok refund,
     { p with transactions := attachRefund p.transactions transactionId refund })

/-! ## RevenueManager (`src/server.js` lines 439–515) -/

/-- A JavaScript number, with `NaN` represented explicitly.  `NaN` arises in
this service from `undefined + amount` in `updateRevenue`. -/

inductive JsNum where
  | num (q : ℚ)
  | nan
  deriving Repr, DecidableEq

/-- `o + amount` where `o` is the result of an object-property read:
a missing property reads as `undefined` and `undefined + amount = NaN`. -/

def jsReadAdd : Option JsNum → ℚ → JsNum
  | some (.num q), a => .num (q + a)
  | some .nan, _ => .nan
  | none, _ => .nan

/-- Object assignment `obj[key] = v`: overwrites an existing key in place,
appends a fresh key at the end (JavaScript property-insertion order). -/

def setKey (xs : List (String × JsNum)) (key : String) (v : JsNum) :
    List (String × JsNum) :=
  if (mapGet xs key).isSome then mapUpdate xs key v else xs ++ [(key, v)]

structure RevenueManager where
  streams : List (String × JsNum)
  deriving Repr, DecidableEq

/-- The initial `this.streams` object of `RevenueManager`. -/

def initStreams : List (String × JsNum) :=
  [("subscriptions", .num 0), ("marketplace", .num 0), ("ads", .num 0),
   ("partnerships", .num 0), ("merchandise", .num 0)]

/-- The fixed stream-name set named by the specification. -/

def validStreams : List String :=
  ["subscriptions", "marketplace", "ads", "partnerships", "merchandise"]

/-- `RevenueManager.updateRevenue`: literally `this.streams[stream] += amount`,
with no validation of `stream`. -/

def updateRevenue (r : RevenueManager) (stream : String) (amount : ℚ) :
    RevenueManager :=
  { r with streams :=
      setKey r.streams stream (jsReadAdd (mapGet r.streams stream) amount) }

/-- `RevenueManager.getHistoricalRevenue` (hard-coded mock data). -/

def getHistoricalRevenue : List ℚ := [35000, 42000, 48000, 52000, 58000]

/-- `RevenueManager.predictRevenue`, parametrised by the historical series it
reads (the method itself always reads `getHistoricalRevenue`).  `null` is
modelled as `none`. -/

def predictRevenueOn (historicalData : List ℚ) : Option ℚ :=
  if historicalData.length < 3 then none
  else
    let n : ℚ := historicalData.length
    let sumX : ℚ := (historicalData.enum.map fun p => ((p.1 : ℚ))).sum
    let sumY : ℚ := historicalData.sum
    let sumXY : ℚ := (historicalData.enum.map fun p => p.2 * (p.1 : ℚ)).sum
    let sumXX : ℚ := (historicalData.enum.map fun p => ((p.1 : ℚ)) * ((p.1 : ℚ))).sum
    let slope := (n * sumXY - sumX * sumY) / (n * sumXX - sumX * sumX)
    let intercept := (sumY - slope * sumX) / n
    let nextPeriod := n
    some (max 0 (slope * nextPeriod + intercept))

/-- `RevenueManager.predictRevenue` as called by the service. -/

def predictRevenue : Option ℚ := predictRevenueOn getHistoricalRevenue

/-! ## Sample states used by witnesses -/

def sampleListing : Listing :=
  { id := "L2", sellerId := "s1", category := "cosmetics", price := 10,
    status := "active", views := 0, purchases := 0, revenue := 0 }

def sampleMarketplace : MarketplaceManager :=
  { listings := [("L2", sampleListing)], transactions := [] }

/-- A reachable marketplace state holding a listing whose `category` is not a
key of the category table (`createListing` performs no validation). -/

def junkCategoryMarketplace : MarketplaceManager :=
  (createListing { listings := [], transactions := [] } "L1" "s1" "junk" 10).2

def samplePurchaseTx : MarketplaceTransaction :=
  { id := "tx2", listingId := "L2", buyerId := "b1", sellerId := "s1",
    amount := 10, currency := "USD", paymentMethod := "stripe",
    status := "completed", royalty := 10 * 0.3 }

def samplePurchasedMarketplace : MarketplaceManager :=
  { listings := [("L2",
      { sampleListing with purchases := 0 + 1, revenue := 0 + 10 })],
    transactions := [samplePurchaseTx] }

def samplePayTx : PaymentTransaction :=
  { id := "pt1", amount := 25, currency := "USD", method := "stripe",
    status := "completed", refund := none }

def samplePayments : PaymentProcessor := ⟨[samplePayTx]⟩

/-! ## JobBoardManager (`src/server.js` lines 1240–1476) -/

structure Job where
  id : String
  type : String
  name : String
  risk : String
  payout : ℤ
  duration : ℤ
  status : String
  createdAt : ℤ
  expiresAt : ℤ
  issuer : String
  acceptedBy : Option String
  acceptedAt : Option ℤ
  deadline : Option ℤ
  completedAt : Option ℤ
  deriving Repr, DecidableEq

structure JobTemplate where
  type : String
  name : String
  risk : String
  payoutMin : ℚ
  payoutMax : ℚ
  durationMin : ℚ
  durationMax : ℚ
  deriving Repr, DecidableEq

/-- `JobBoardManager.calculatePayout`: `Math.floor(rand * (max - min) + min)`. -/

def calculatePayout (payoutMin payoutMax draw : ℚ) : ℤ :=
  ⌊draw * (payoutMax - payoutMin) + payoutMin⌋

/-- `JobBoardManager.calculateDuration`: `Math.floor(rand * (max - min) + min)`. -/

def calculateDuration (durationMin durationMax draw : ℚ) : ℤ :=
  ⌊draw * (durationMax - durationMin) + durationMin⌋

/-- `JobBoardManager.createJobFromTemplate`: a fresh job always has
`status: 'available'` and a 24-hour expiry. -/

def createJobFromTemplate (tpl : JobTemplate) (newId : String)
    (payoutDraw durationDraw : ℚ) (now : ℤ) (issuer : String) : Job :=
  { id := newId, type := tpl.type, name := tpl.name, risk := tpl.risk,
    payout := calculatePayout tpl.payoutMin tpl.payoutMax payoutDraw,
    duration := calculateDuration tpl.durationMin tpl.durationMax durationDraw,
    status := "available", createdAt := now,
    expiresAt := now + 24 * 60 * 60 * 1000, issuer := issuer,
    acceptedBy := none, acceptedAt := none, deadline := none,
    completedAt := none }

structure JobStats where
  totalJobs : ℕ
  completedJobs : ℕ
  failedJobs : ℕ
  totalPayout : ℤ
  deriving Repr, DecidableEq

structure JobBoardManager where
  jobs : List (String × Job)
  completedJobs : List Job
  jobStats : JobStats
  deriving Repr, DecidableEq

/-- `JobBoardManager.acceptJob`: throws `Error('Job not available')` unless the
job exists with status `'available'`. -/

def acceptJob (jb : JobBoardManager) (jobId playerId : String) (now : ℤ) :
    Except JsError Job × JobBoardManager :=
  match mapGet jb.jobs jobId with
  | none => (.error (.thrown "Job not available"), jb)
  | some job =>
    if job.status = "available" then
      let job' : Job :=
        { job with status := "active", acceptedBy := some playerId,
                   acceptedAt := some now,
                   deadline := some (now + job.duration * 60 * 60 * 1000) }
      (.ok job', { jb with jobs := mapUpdate jb.jobs jobId job' })
    else (.error (.thrown "Job not available"), jb)

/-- `JobBoardManager.completeJob`: throws `Error('Job not active')` unless the
job exists with status `'active'`; on success flips the status to
`'completed'`/`'failed'`, pushes the job to the completed history (truncated to
the most recent 50 once it exceeds 100) and updates the statistics. -/

def completeJob (jb : JobBoardManager) (jobId : String) (success : Bool)
    (now : ℤ) : Except JsError Job × JobBoardManager :=
  match mapGet jb.jobs jobId with
  | none => (.error (.thrown "Job not active"), jb)
  | some job =>
    if job.status = "active" then
      let job' : Job :=
        { job with status := if success then "completed" else "failed",
                   completedAt := some now }
      let stats := jb.jobStats
      let stats' : JobStats :=
        if success then
          { stats with totalJobs := stats.totalJobs + 1,
                       completedJobs := stats.completedJobs + 1,
                       totalPayout := stats.totalPayout + job'.payout }
        else
          { stats with totalJobs := stats.totalJobs + 1,
                       failedJobs := stats.failedJobs + 1 }
      let completed := jb.completedJobs ++ [job']
      let completedTrunc :=
        if 100 < completed.length then completed.drop (completed.length - 50)
        else completed
      (.ok job',
       { jb with jobs := mapUpdate jb.jobs jobId job',
                 completedJobs := completedTrunc, jobStats := stats' })
    else (.error (.thrown "Job not active"), jb)

def sampleAvailableJob : Job :=
  { id := "J1", type := "courier", name := "Package Delivery", risk := "low",
    payout := 800, duration := 4, status := "available", createdAt := 0,
    expiresAt := 86400000, issuer := "Local Merchant", acceptedBy := none,
    acceptedAt := none, deadline := none, completedAt := none }

def sampleJobBoard : JobBoardManager :=
  { jobs := [("J1", sampleAvailableJob)], completedJobs := [],
    jobStats := { totalJobs := 0, completedJobs := 0, failedJobs := 0,
                  totalPayout := 0 } }

/-! ## BlackMarketManager (`src/server.js` lines 1478–1610) -/

structure BlackMarketListing where
  id : String
  sellerId : String
  askingPrice : ℚ
  status : String
  risk : String
  deriving Repr, DecidableEq

structure BlackMarketTransaction where
  id : String
  listingId : String
  buyerId : String
  sellerId : String
  price : ℚ
  status : String
  risk : String
  deriving Repr, DecidableEq

structure BlackMarketStats where
  totalListings : ℕ
  totalTransactions : ℕ
  totalVolume : ℚ
  deriving Repr, DecidableEq

structure BlackMarketManager where
  listings : List (String × BlackMarketListing)
  transactions : List BlackMarketTransaction
  marketStats : BlackMarketStats
  deriving Repr, DecidableEq

/-- The interception probability of `purchaseBlackMarketItem`:
`listing.risk === 'high' ? 0.2 : listing.risk === 'medium' ? 0.1 : 0.05`. -/

def interceptionRiskOf (risk : String) : ℚ :=
  if risk = "high" then 0.2 else if risk = "medium" then 0.1 else 0.05

/-- `BlackMarketManager.purchaseBlackMarketItem`.  `draw` is the
`Math.random()` outcome; the purchase is intercepted when
`draw < interceptionRiskOf listing.risk`.  An intercepted purchase records an
`'intercepted'` transaction but does not touch the listing; only a
non-intercepted purchase sets the listing status to `'sold'`. -/

def purchaseBlackMarketItem (b : BlackMarketManager)
    (listingId buyerId txId : String) (draw : ℚ) :
    Except JsError BlackMarketTransaction × BlackMarketManager :=
  match mapGet b.listings listingId with
  | none => (.error (.thrown "Listing not available"), b)
  | some listing =>
    if listing.status = "active" then
      let intercepted := draw < interceptionRiskOf listing.risk
      let t : BlackMarketTransaction :=
        { id := txId, listingId := listingId, buyerId := buyerId,
          sellerId := listing.sellerId, price := listing.askingPrice,
          status := if intercepted then "intercepted" else "completed",
          risk := listing.risk }
      let stats' : BlackMarketStats :=
        { b.marketStats with
            totalTransactions := b.marketStats.totalTransactions + 1,
            totalVolume := b.marketStats.totalVolume + t.price }
      if intercepted then
        (.ok t, { b with transactions := b.transactions ++ [t],
                         marketStats := stats' })
      else
        (.ok t, { b with transactions := b.transactions ++ [t],
                         marketStats := stats',
                         listings := mapUpdate b.listings listingId
                           { listing with status := "sold" } })
    else (.error (.thrown "Listing not available"), b)

def sampleBlackMarketListing : BlackMarketListing :=
  { id := "BM1", sellerId := "s1", askingPrice := 5000, status := "active",
    risk := "high" }

def sampleBlackMarket : BlackMarketManager :=
  { listings := [("BM1", sampleBlackMarketListing)], transactions := [],
    marketStats := { totalListings := 1, totalTransactions := 0,
                     totalVolume := 0 } }

/-! ## SmugglingManager (`src/server.js` lines 874–1018) -/

structure RiskLevel where
  interceptionChance : ℚ
  rewardMultiplier : ℚ
  deriving Repr, DecidableEq

/-- The fixed `this.riskLevels` table of `SmugglingManager`. -/

def riskLevels : List (String × RiskLevel) :=
  [("low", ⟨0.05, 1.2⟩), ("medium", ⟨0.15, 1.8⟩),
   ("high", ⟨0.30, 2.5⟩), ("extreme", ⟨0.50, 4.0⟩)]

structure SmugglingRun where
  id : String
  captain : String
  cargo : String
  origin : String
  destination : String
  value : ℤ
  risk : String
  deriving Repr, DecidableEq

/-- `SmugglingManager.generateRandomSmugglingRun`.  Each `Math.floor(random *
n)` index draw is modelled by a natural-number oracle reduced mod `n` (its
exact reachable range). -/

def generateRandomSmugglingRun (newId : String)
    (captainIdx cargoIdx originIdx destIdx riskIdx valueDraw : ℕ) :
    SmugglingRun :=
  let cargoTypes := ["luxury_goods", "technology", "weapons", "narcotics",
                     "artifacts"]
  let origins := ["Neo-Vegas", "Corporate Core", "Outer Rim", "Scavenger Belt"]
  let destinations := ["Free Port", "Black Market Hub", "Smuggler\x27s Haven"]
  { id := newId,
    captain := "Captain " ++
      (["Jax", "Nova", "Rex", "Luna", "Drake"].getD (captainIdx % 5) "Jax"),
    cargo := cargoTypes.getD (cargoIdx % 5) "luxury_goods",
    origin := origins.getD (originIdx % 4) "Neo-Vegas",
    destination := destinations.getD (destIdx % 3) "Free Port",
    value := (valueDraw % 50000 : ℕ) + 10000,
    risk := ["low", "medium", "high"].getD (riskIdx % 3) "low" }

structure CompletedSmugglingRun where
  run : SmugglingRun
  success : Bool
  reward : Option ℤ
  intercepted : Bool
  deriving Repr, DecidableEq

/-- The resolution step of `SmugglingManager.completeSmugglingRun`: the run's
risk tier is looked up in `riskLevels` (a tier outside the table would make
`riskLevel.interceptionChance` throw, modelled as `none`); success is the draw
exceeding the tier's interception chance, and a successful run's reward is
`Math.floor(run.value * riskLevel.rewardMultiplier)`. -/

def resolveSmugglingRun (run : SmugglingRun) (draw : ℚ) :
    Option CompletedSmugglingRun :=
  match mapGet riskLevels run.risk with
  | none => none
  | some riskLevel =>
    if draw > riskLevel.interceptionChance then
      some { run := run, success := true,
             reward := some ⌊(run.value : ℚ) * riskLevel.rewardMultiplier⌋,
             intercepted := false }
    else
      some { run := run, success := false, reward := none,
             intercepted := true }

structure CargoType where
  id : String
  name : String
  category : String
  legality : String
  baseValue : ℚ
  volume : ℚ
  rarity : String
  deriving Repr, DecidableEq, Inhabited

structure ManifestItem where
  type : String
  name : String
  quantity : ℤ
  unitValue : ℚ
  totalValue : ℚ
  volume : ℚ
  legality : String
  category : String
  deriving Repr, DecidableEq

structure Manifest where
  id : String
  cargo : List ManifestItem
  totalValue : ℚ
  totalVolume : ℚ
  riskLevel : String
  deriving Repr, DecidableEq

/-- One iteration of the `while` loop of `CargoManager.generateCargoManifest`
(`src/server.js` lines 1174–1211): draw a random eligible cargo type, compute
the bounded quantity `min(floor(remaining/volume), legendary ? 1 : 10)`, push a
line item when that bound is positive (quantity further capped by
`floor(random()*5)+1`), update the totals and the risk level, and in all cases
remove the drawn type from the draw pool.  Returns the new
(remaining capacity, pool, manifest). -/

def manifestStep (oracle : ℕ → ℕ × ℕ) (step : ℕ) (remaining : ℚ)
    (pool : List CargoType) (m : Manifest) : ℚ × List CargoType × Manifest :=
  let i := (oracle step).1 % pool.length
  let cargo := pool.getD i default
  let maxQuantity : ℤ :=
    min ⌊remaining / cargo.volume⌋ (if cargo.rarity = "legendary" then 1 else 10)
  if 0 < maxQuantity then
    let quantity : ℤ := min maxQuantity (((oracle step).2 % 5 + 1 : ℕ) : ℤ)
    let value : ℚ := cargo.baseValue * (quantity : ℚ)
    let item : ManifestItem :=
      { type := cargo.id, name := cargo.name, quantity := quantity,
        unitValue := cargo.baseValue, totalValue := value,
        volume := cargo.volume * (quantity : ℚ),
        legality := cargo.legality, category := cargo.category }
    let m' : Manifest :=
      { m with
        cargo := m.cargo ++ [item],
        totalValue := m.totalValue + value,
        totalVolume := m.totalVolume + cargo.volume * (quantity : ℚ),
        riskLevel :=
          if cargo.legality = "illegal" then "extreme"
          else if cargo.legality = "restricted" ∧ m.riskLevel = "low" then "medium"
          else m.riskLevel }
    (remaining - cargo.volume * (quantity : ℚ), pool.eraseIdx i, m')
  else (remaining, pool.eraseIdx i, m)

/-- The `while (remainingCapacity > 0 && availableCargo.length > 0)` loop of
`generateCargoManifest`; terminates because every iteration removes the drawn
cargo type from the pool. -/

def manifestLoop (oracle : ℕ → ℕ × ℕ) (step : ℕ) (remaining : ℚ)
    (pool : List CargoType) (m : Manifest) : Manifest :=
  if h : 0 < remaining ∧ pool ≠ [] then
    let s := manifestStep oracle step remaining pool m
    manifestLoop oracle (step + 1) s.1 s.2.1 s.2.2
  else m
termination_by pool.length
decreasing_by
  have hlp : 0 < pool.length := List.length_pos.mpr h.2
  have hp : (manifestStep oracle step remaining pool m).2.1 =
      pool.eraseIdx ((oracle step).1 % pool.length) := by
    simp only [manifestStep]
    split <;> split <;> rfl
  rw [hp, List.length_eraseIdx_of_lt (Nat.mod_lt _ hlp)]
  omega

/-- The same loop with explicit fuel: `none` when the fuel runs out with the
loop condition still holding. -/

def manifestLoopFuel (oracle : ℕ → ℕ × ℕ) :
    ℕ → ℕ → ℚ → List CargoType → Manifest → Option Manifest
  | 0, _, remaining, pool, m =>
    if 0 < remaining ∧ pool ≠ [] then none else some m
  | fuel + 1, step, remaining, pool, m =>
    if 0 < remaining ∧ pool ≠ [] then
      let s := manifestStep oracle step remaining pool m
      manifestLoopFuel oracle fuel (step + 1) s.1 s.2.1 s.2.2
    else some m

/-- Sum of the line-item totals of a manifest. -/

def itemsValueSum (items : List ManifestItem) : ℚ :=
  (items.map fun it => it.totalValue).sum

/-- `CargoManager.loadFallbackCargoTypes`: the built-in cargo catalog the
service uses when no external lore provider is configured. -/

def fallbackCargoTypes : List CargoType :=
  [{ id := "bulk_ore", name := "Bulk Ore", category := "raw_materials",
     legality := "legal", baseValue := 500, volume := 100, rarity := "common" },
   { id := "manufactured_goods", name := "Manufactured Goods",
     category := "consumer_goods", legality := "legal", baseValue := 2000,
     volume := 50, rarity := "common" },
   { id := "medical_supplies", name := "Medical Supplies", category := "medical",
     legality := "legal", baseValue := 1500, volume := 25, rarity := "uncommon" },
   { id := "luxury_spices", name := "Luxury Spices", category := "luxury",
     legality := "restricted", baseValue := 5000, volume := 10, rarity := "rare" },
   { id := "military_tech", name := "Military Technology",
     category := "technology", legality := "illegal", baseValue := 25000,
     volume := 5, rarity := "rare" },
   { id := "void_artifacts", name := "Void Artifacts", category := "artifacts",
     legality := "restricted", baseValue := 50000, volume := 2,
     rarity := "legendary" },
   { id := "cybernetic_enhancements", name := "Cybernetic Enhancements",
     category := "cybernetics", legality := "restricted", baseValue := 8000,
     volume := 8, rarity := "uncommon" },
   { id := "stolen_data", name := "Stolen Corporate Data", category := "data",
     legality := "illegal", baseValue := 15000, volume := 1, rarity := "rare" }]

/-- The risk-tolerance filter of `generateCargoManifest` (`switch` on
`riskTolerance`: low→legal only, medium→not illegal, high→everything,
default→legal only). -/

def eligibleCargo (riskTolerance : String) (catalog : List CargoType) :
    List CargoType :=
  catalog.filter fun cargo =>
    if riskTolerance = "low" then cargo.legality == "legal"
    else if riskTolerance = "medium" then cargo.legality != "illegal"
    else if riskTolerance = "high" then true
    else cargo.legality == "legal"

/-- `CargoManager.generateCargoManifest` over the fallback catalog. -/

def generateCargoManifest (oracle : ℕ → ℕ × ℕ) (newId : String)
    (shipCapacity : ℚ) (riskTolerance : String) : Manifest :=
  manifestLoop oracle 0 shipCapacity
    (eligibleCargo riskTolerance fallbackCargoTypes)
    { id := newId, cargo := [], totalValue := 0, totalVolume := 0,
      riskLevel := "low" }

/-! ## Least-squares forecasting (`RevenueManager.predictRevenue`) -/

/-- Spec-side ordinary-least-squares sums over period indices `0..n-1`
(`x`-values of the fit). -/

def olsSumX (n : ℕ) : ℚ := ∑ i in Finset.range n, (i : ℚ)

def olsSumXX (n : ℕ) : ℚ := ∑ i in Finset.range n, (i : ℚ) * (i : ℚ)

def olsSumY (data : List ℚ) : ℚ :=
  ∑ i in Finset.range data.length, data.getD i 0

def olsSumXY (data : List ℚ) : ℚ :=
  ∑ i in Finset.range data.length, data.getD i 0 * (i : ℚ)

/-- The closed-form ordinary-least-squares slope for revenue against period
index, as named by the specification. -/

def olsSlope (data : List ℚ) : ℚ :=
  ((data.length : ℚ) * olsSumXY data - olsSumX data.length * olsSumY data) /
    ((data.length : ℚ) * olsSumXX data.length -
      olsSumX data.length * olsSumX data.length)

/-- The closed-form ordinary-least-squares intercept. -/

def olsIntercept (data : List ℚ) : ℚ :=
  (olsSumY data - olsSlope data * olsSumX data.length) / (data.length : ℚ)

/-! ## Theorems about the claims of the specification -/

theorem mapGet_mapUpdate {α : Type} (xs : List (String × α)) (key : String) (v : α)
    (h : (mapGet xs key).isSome) : mapGet (mapUpdate xs key v) key = some v := by
  induction xs with
  | nil => simp [mapGet] at h
  | cons p xs ih =>
    obtain ⟨k, w⟩ := p
    by_cases hk : key = k
    · subst hk
      simp [mapUpdate, mapGet]
    · have hk' : ¬ k = key := fun hc => hk hc.symm
      simp only [mapGet, if_neg hk] at h
      simp [mapUpdate, mapGet, hk, hk', ih h]

/-- C1 counterexample: the claim quantifies over every listing present in the
store, but `createListing` never validates the category, so a present listing
whose `category` is not in the category table is reachable; purchasing it
throws a `TypeError` (from `this.categories[listing.category].royalty`) and
appends no transaction, instead of appending exactly one transaction. -/

theorem purchaseListing_junk_category_counterexample :
    (mapGet junkCategoryMarketplace.listings "L1").isSome = true ∧
    (purchaseListing junkCategoryMarketplace "L1" "b1" "stripe" "tx1").1 =
      .error .typeError ∧
    (purchaseListing junkCategoryMarketplace "L1" "b1" "stripe" "tx1").2 =
      junkCategoryMarketplace :=
  ⟨rfl, rfl, rfl⟩

/-- C1 (amended): for every listing id not present in the listing store,
`purchaseListing` fails with NotFound; for every present listing whose
category is present in the category table, it appends exactly one transaction
whose amount equals the listing's price and whose royalty equals the listing's
price times the royalty rate of the listing's category, and it increments that
listing's purchase counter by exactly 1 and its revenue accumulator by exactly
the transaction amount. -/

theorem purchaseListing_spec (m : MarketplaceManager)
    (listingId buyerId pm txId : String) :
    (mapGet m.listings listingId = none →
      purchaseListing m listingId buyerId pm txId =
        (.error (.thrown "Listing not found"), m)) ∧
    (∀ listing cat, mapGet m.listings listingId = some listing →
      mapGet categories listing.category = some cat →
      ∃ t m', purchaseListing m listingId buyerId pm txId = (.ok t, m') ∧
        t.amount = listing.price ∧
        t.royalty = listing.price * cat.royalty ∧
        m'.transactions = m.transactions ++ [t] ∧
        mapGet m'.listings listingId =
          some { listing with purchases := listing.purchases + 1,
                              revenue := listing.revenue + t.amount }) := by
  constructor
  · intro h
    simp [purchaseListing, h]
  · intro listing cat hl hc
    simp only [purchaseListing, hl, hc]
    exact ⟨_, _, rfl, rfl, rfl, rfl, mapGet_mapUpdate _ _ _ (by rw [hl]; rfl)⟩

theorem purchaseListing_spec_witness :
    mapGet sampleMarketplace.listings "L2" = some sampleListing ∧
    mapGet categories sampleListing.category = some ⟨4.99, 0.3⟩ ∧
    ∃ t m', purchaseListing sampleMarketplace "L2" "b1" "stripe" "tx1" =
        (.ok t, m') ∧
      t.amount = sampleListing.price ∧
      t.royalty = sampleListing.price * (MarketCategory.mk 4.99 0.3).royalty ∧
      m'.transactions = sampleMarketplace.transactions ++ [t] ∧
      mapGet m'.listings "L2" =
        some { sampleListing with purchases := sampleListing.purchases + 1,
                                  revenue := sampleListing.revenue + t.amount } :=
  ⟨rfl, rfl,
   (purchaseListing_spec sampleMarketplace "L2" "b1" "stripe" "tx1").2
     sampleListing ⟨4.99, 0.3⟩ rfl rfl⟩

/-- C10: every transaction that `purchaseListing` returns (and appends) has
status `"completed"` at creation; a marketplace purchase never produces a
transaction in the `"processing"` or `"failed"` state. -/

theorem purchaseListing_transaction_completed (m : MarketplaceManager)
    (listingId buyerId pm txId : String) (t : MarketplaceTransaction)
    (m' : MarketplaceManager)
    (h : purchaseListing m listingId buyerId pm txId = (.ok t, m')) :
    t.status = "completed" ∧ t.status ≠ "processing" ∧ t.status ≠ "failed" := by
  rcases hml : mapGet m.listings listingId with _ | listing
  · simp [purchaseListing, hml] at h
  · rcases hmc : mapGet categories listing.category with _ | cat
    · simp [purchaseListing, hml, hmc] at h
    · simp only [purchaseListing, hml, hmc, Prod.mk.injEq, Except.ok.injEq] at h
      obtain ⟨h1, -⟩ := h
      subst h1
      exact ⟨rfl, by simp, by simp⟩

theorem purchaseListing_transaction_completed_witness :
    samplePurchaseTx.status = "completed" ∧
    samplePurchaseTx.status ≠ "processing" ∧
    samplePurchaseTx.status ≠ "failed" :=
  purchaseListing_transaction_completed sampleMarketplace "L2" "b1" "stripe"
    "tx2" samplePurchaseTx samplePurchasedMarketplace rfl

/-- C2 counterexample: `updateRevenue` performs no stream-name validation at
all.  On the stream name `"bogus"` (not in the fixed set) it does not fail
with InvalidStream: it executes `this.streams[stream] += amount`, which reads
`undefined`, computes `undefined + 5 = NaN`, and stores a new `"bogus"` entry
holding `NaN` — the state is mutated rather than an error being raised. -/

theorem updateRevenue_no_validation_counterexample :
    "bogus" ∉ validStreams ∧
    (updateRevenue ⟨initStreams⟩ "bogus" 5).streams =
      initStreams ++ [("bogus", JsNum.nan)] :=
  ⟨by decide, by decide⟩

/-- C2 (amended): `updateRevenue` never fails.  For a stream name with no
existing entry (in particular every name outside the fixed set
{subscriptions, marketplace, ads, partnerships, merchandise}) it appends a new
entry whose value is `NaN`; for a stream whose entry holds a number — which is
the case for all five fixed streams, initialised to 0 — the accumulated total
increases by exactly the given amount. -/

theorem updateRevenue_spec (r : RevenueManager) (stream : String) (amount : ℚ) :
    (mapGet r.streams stream = none →
      (updateRevenue r stream amount).streams =
        r.streams ++ [(stream, JsNum.nan)]) ∧
    (∀ q, mapGet r.streams stream = some (.num q) →
      mapGet (updateRevenue r stream amount).streams stream =
        some (.num (q + amount))) ∧
    (∀ s, s ∈ validStreams → mapGet initStreams s = some (.num 0)) := by
  refine ⟨?_, ?_, by decide⟩
  · intro h
    simp [updateRevenue, setKey, h, jsReadAdd]
  · intro q h
    simp only [updateRevenue, setKey, h, jsReadAdd, Option.isSome_some, if_pos]
    exact mapGet_mapUpdate _ _ _ (by rw [h]; rfl)

theorem updateRevenue_spec_witness :
    mapGet initStreams "bogus" = none ∧
    (updateRevenue ⟨initStreams⟩ "bogus" 5).streams =
      initStreams ++ [("bogus", JsNum.nan)] ∧
    mapGet initStreams "ads" = some (.num 0) ∧
    mapGet (updateRevenue ⟨initStreams⟩ "ads" 7).streams "ads" =
      some (.num (0 + 7)) :=
  ⟨by decide, (updateRevenue_spec ⟨initStreams⟩ "bogus" 5).1 (by decide),
   by decide, (updateRevenue_spec ⟨initStreams⟩ "ads" 7).2.1 0 (by decide)⟩

theorem findTransaction_attachRefund (xs : List PaymentTransaction)
    (tid : String) (r : PaymentRefund) (t : PaymentTransaction)
    (h : findTransaction xs tid = some t) :
    findTransaction (attachRefund xs tid r) tid =
      some { t with refund := some r } := by
  induction xs with
  | nil => simp [findTransaction] at h
  | cons u xs ih =>
    by_cases hu : u.id = tid
    · simp only [findTransaction, if_pos hu, Option.some.injEq] at h
      subst h
      simp [attachRefund, findTransaction, hu]
    · simp only [findTransaction, if_neg hu] at h
      simp [attachRefund, findTransaction, hu, ih h]

/-- C8: refunding a transaction id with no matching ledger entry fails with
NotFound and returns the ledger completely unchanged; refunding a matching
transaction attaches a refund sub-record whose amount equals the full original
transaction amount. -/

theorem refundTransaction_spec (p : PaymentProcessor) (tid reason rid : String) :
    (findTransaction p.transactions tid = none →
      refundTransaction p tid reason rid =
        (.error (.thrown "Transaction not found"), p)) ∧
    (∀ t, findTransaction p.transactions tid = some t →
      ∃ r p', refundTransaction p tid reason rid = (.ok r, p') ∧
        r.amount = t.amount ∧
        r.originalTransactionId = tid ∧
        r.status = "completed" ∧
        findTransaction p'.transactions tid =
          some { t with refund := some r }) := by
  constructor
  · intro h
    simp [refundTransaction, h]
  · intro t h
    simp only [refundTransaction, h]
    exact ⟨_, _, rfl, rfl, rfl, rfl, findTransaction_attachRefund _ _ _ _ h⟩

theorem refundTransaction_spec_witness :
    findTransaction samplePayments.transactions "nope" = none ∧
    refundTransaction samplePayments "nope" "reason" "rf0" =
      (.error (.thrown "Transaction not found"), samplePayments) ∧
    findTransaction samplePayments.transactions "pt1" = some samplePayTx ∧
    ∃ r p', refundTransaction samplePayments "pt1" "fraud" "rf1" = (.ok r, p') ∧
      r.amount = samplePayTx.amount ∧
      r.originalTransactionId = "pt1" ∧
      r.status = "completed" ∧
      findTransaction p'.transactions "pt1" =
        some { samplePayTx with refund := some r } :=
  ⟨rfl,
   (refundTransaction_spec samplePayments "nope" "reason" "rf0").1 rfl,
   rfl,
   (refundTransaction_spec samplePayments "pt1" "fraud" "rf1").2 samplePayTx
     rfl⟩

/-- C6: the job state machine available→active→{completed,failed} is enforced:
`acceptJob` fails with InvalidState (leaving the board unchanged) unless the
job exists with status `"available"`, `completeJob` fails with InvalidState
unless the job exists with status `"active"`, a job created from a template is
always `"available"`, and `completeJob` on a job in state `"available"` (one
that was never accepted) always fails. -/

theorem jobStateMachine_spec (jb : JobBoardManager) (jobId playerId : String)
    (success : Bool) (now : ℤ) :
    (mapGet jb.jobs jobId = none →
      acceptJob jb jobId playerId now = (.error (.thrown "Job not available"), jb) ∧
      completeJob jb jobId success now = (.error (.thrown "Job not active"), jb)) ∧
    (∀ job, mapGet jb.jobs jobId = some job → job.status ≠ "available" →
      acceptJob jb jobId playerId now = (.error (.thrown "Job not available"), jb)) ∧
    (∀ job, mapGet jb.jobs jobId = some job → job.status ≠ "active" →
      completeJob jb jobId success now = (.error (.thrown "Job not active"), jb)) ∧
    (∀ job, mapGet jb.jobs jobId = some job → job.status = "available" →
      completeJob jb jobId success now = (.error (.thrown "Job not active"), jb) ∧
      ∃ job', acceptJob jb jobId playerId now =
          (.ok job', { jb with jobs := mapUpdate jb.jobs jobId job' }) ∧
        job'.status = "active") ∧
    (∀ job, mapGet jb.jobs jobId = some job → job.status = "active" →
      ∃ job' jb', completeJob jb jobId success now = (.ok job', jb') ∧
        job'.status = (if success then "completed" else "failed")) ∧
    (∀ tpl newId pd dd now2 issuer,
      (createJobFromTemplate tpl newId pd dd now2 issuer).status = "available") := by
  refine ⟨?_, ?_, ?_, ?_, ?_, fun _ _ _ _ _ _ => rfl⟩
  · intro h
    exact ⟨by simp [acceptJob, h], by simp [completeJob, h]⟩
  · intro job h hs
    simp [acceptJob, h, hs]
  · intro job h hs
    simp [completeJob, h, hs]
  · intro job h hs
    refine ⟨by simp [completeJob, h, hs], ?_⟩
    simp only [acceptJob, h, if_pos hs]
    exact ⟨_, rfl, rfl⟩
  · intro job h hs
    simp only [completeJob, h, if_pos hs]
    exact ⟨_, _, rfl, rfl⟩

theorem jobStateMachine_spec_witness :
    (mapGet sampleJobBoard.jobs "nope" = none ∧
      acceptJob sampleJobBoard "nope" "p1" 5 =
        (.error (.thrown "Job not available"), sampleJobBoard)) ∧
    (mapGet sampleJobBoard.jobs "J1" = some sampleAvailableJob ∧
      sampleAvailableJob.status = "available" ∧
      completeJob sampleJobBoard "J1" true 5 =
        (.error (.thrown "Job not active"), sampleJobBoard) ∧
      ∃ job', acceptJob sampleJobBoard "J1" "p1" 5 =
          (.ok job', { sampleJobBoard with
                        jobs := mapUpdate sampleJobBoard.jobs "J1" job' }) ∧
        job'.status = "active") :=
  ⟨⟨rfl, ((jobStateMachine_spec sampleJobBoard "nope" "p1" true 5).1 rfl).1⟩,
   ⟨rfl, rfl,
    ((jobStateMachine_spec sampleJobBoard "J1" "p1" true 5).2.2.2.1
      sampleAvailableJob rfl rfl).1,
    ((jobStateMachine_spec sampleJobBoard "J1" "p1" true 5).2.2.2.1
      sampleAvailableJob rfl rfl).2⟩⟩

/-- C7: a purchase of an active black-market listing resolves against the
interception probability fixed by the listing's risk tier (low 5%, medium
10%, high 20%); an intercepted purchase records an `"intercepted"`
transaction while the listing map is left completely unchanged (the listing
stays `"active"` and purchasable); a non-intercepted purchase marks the
listing `"sold"`. -/

theorem blackMarketPurchase_spec (b : BlackMarketManager)
    (listingId buyerId txId : String) (draw : ℚ) :
    (interceptionRiskOf "low" = 5 / 100 ∧
     interceptionRiskOf "medium" = 10 / 100 ∧
     interceptionRiskOf "high" = 20 / 100) ∧
    (∀ listing, mapGet b.listings listingId = some listing →
      listing.status = "active" →
      (draw < interceptionRiskOf listing.risk →
        ∃ t b', purchaseBlackMarketItem b listingId buyerId txId draw =
            (.ok t, b') ∧
          t.status = "intercepted" ∧
          b'.listings = b.listings ∧
          b'.transactions = b.transactions ++ [t]) ∧
      (¬ draw < interceptionRiskOf listing.risk →
        ∃ t b', purchaseBlackMarketItem b listingId buyerId txId draw =
            (.ok t, b') ∧
          t.status = "completed" ∧
          mapGet b'.listings listingId =
            some { listing with status := "sold" } ∧
          b'.transactions = b.transactions ++ [t])) := by
  refine ⟨⟨by rw [show interceptionRiskOf "low" = 0.05 from rfl]; norm_num,
           by rw [show interceptionRiskOf "medium" = 0.1 from rfl]; norm_num,
           by rw [show interceptionRiskOf "high" = 0.2 from rfl]; norm_num⟩, ?_⟩
  intro listing hl hs
  constructor
  · intro hint
    simp only [purchaseBlackMarketItem, hl, if_pos hs, if_pos hint]
    exact ⟨_, _, rfl, rfl, rfl, rfl⟩
  · intro hint
    simp only [purchaseBlackMarketItem, hl, if_pos hs, if_neg hint]
    refine ⟨_, _, rfl, rfl, ?_, rfl⟩
    exact mapGet_mapUpdate _ _ _ (by rw [hl]; rfl)

theorem blackMarketPurchase_spec_witness :
    mapGet sampleBlackMarket.listings "BM1" = some sampleBlackMarketListing ∧
    sampleBlackMarketListing.status = "active" ∧
    ((1 : ℚ) / 10 < interceptionRiskOf sampleBlackMarketListing.risk ∧
      ∃ t b', purchaseBlackMarketItem sampleBlackMarket "BM1" "b1" "t1" (1 / 10) =
          (.ok t, b') ∧
        t.status = "intercepted" ∧
        b'.listings = sampleBlackMarket.listings ∧
        b'.transactions = sampleBlackMarket.transactions ++ [t]) ∧
    (¬ (1 : ℚ) / 2 < interceptionRiskOf sampleBlackMarketListing.risk ∧
      ∃ t b', purchaseBlackMarketItem sampleBlackMarket "BM1" "b1" "t2" (1 / 2) =
          (.ok t, b') ∧
        t.status = "completed" ∧
        mapGet b'.listings "BM1" =
          some { sampleBlackMarketListing with status := "sold" } ∧
        b'.transactions = sampleBlackMarket.transactions ++ [t]) := by
  have hlow : (1 : ℚ) / 10 < interceptionRiskOf sampleBlackMarketListing.risk := by
    norm_num [interceptionRiskOf, sampleBlackMarketListing]
  have hhigh : ¬ (1 : ℚ) / 2 < interceptionRiskOf sampleBlackMarketListing.risk := by
    norm_num [interceptionRiskOf, sampleBlackMarketListing]
  refine ⟨rfl, rfl, ⟨hlow, ?_⟩, ⟨hhigh, ?_⟩⟩
  · exact ((blackMarketPurchase_spec sampleBlackMarket "BM1" "b1" "t1"
      (1 / 10)).2 sampleBlackMarketListing rfl rfl).1 hlow
  · exact ((blackMarketPurchase_spec sampleBlackMarket "BM1" "b1" "t2"
      (1 / 2)).2 sampleBlackMarketListing rfl rfl).2 hhigh

theorem resolveSmugglingRun_eval (run : SmugglingRun) (rl : RiskLevel)
    (h : mapGet riskLevels run.risk = some rl) :
    (∀ draw : ℚ, draw > rl.interceptionChance →
      resolveSmugglingRun run draw =
        some { run := run, success := true,
               reward := some ⌊(run.value : ℚ) * rl.rewardMultiplier⌋,
               intercepted := false }) ∧
    (∀ draw : ℚ, ¬ draw > rl.interceptionChance →
      resolveSmugglingRun run draw =
        some { run := run, success := false, reward := none,
               intercepted := true }) := by
  refine ⟨fun draw hd => ?_, fun draw hd => ?_⟩
  · simp only [resolveSmugglingRun, h]
    rw [if_pos hd]
  · simp only [resolveSmugglingRun, h]
    rw [if_neg hd]

/-- C9: every generated smuggling run has a risk tier in
{low, medium, high, extreme} (the generator in fact only draws from the first
three), and that tier maps through the fixed `riskLevels` table to the
interception probability and reward multiplier used when the run is
resolved. -/

theorem smugglingRun_riskTier_spec (newId : String)
    (captainIdx cargoIdx originIdx destIdx riskIdx valueDraw : ℕ) :
    (generateRandomSmugglingRun newId captainIdx cargoIdx originIdx destIdx
        riskIdx valueDraw).risk ∈ ["low", "medium", "high", "extreme"] ∧
    ∃ rl, mapGet riskLevels
        (generateRandomSmugglingRun newId captainIdx cargoIdx originIdx destIdx
          riskIdx valueDraw).risk = some rl ∧
      (∀ draw : ℚ, draw > rl.interceptionChance →
        resolveSmugglingRun
            (generateRandomSmugglingRun newId captainIdx cargoIdx originIdx
              destIdx riskIdx valueDraw) draw =
          some { run := generateRandomSmugglingRun newId captainIdx cargoIdx
                   originIdx destIdx riskIdx valueDraw,
                 success := true,
                 reward := some ⌊((generateRandomSmugglingRun newId captainIdx
                   cargoIdx originIdx destIdx riskIdx valueDraw).value : ℚ) *
                   rl.rewardMultiplier⌋,
                 intercepted := false }) ∧
      (∀ draw : ℚ, ¬ draw > rl.interceptionChance →
        resolveSmugglingRun
            (generateRandomSmugglingRun newId captainIdx cargoIdx originIdx
              destIdx riskIdx valueDraw) draw =
          some { run := generateRandomSmugglingRun newId captainIdx cargoIdx
                   originIdx destIdx riskIdx valueDraw,
                 success := false, reward := none, intercepted := true }) := by
  have h3 : riskIdx % 3 = 0 ∨ riskIdx % 3 = 1 ∨ riskIdx % 3 = 2 := by omega
  have hrisk : (generateRandomSmugglingRun newId captainIdx cargoIdx originIdx
      destIdx riskIdx valueDraw).risk = ["low", "medium", "high"].getD
      (riskIdx % 3) "low" := rfl
  rcases h3 with h | h | h
  · rw [h] at hrisk
    exact ⟨by rw [hrisk]; decide, ⟨0.05, 1.2⟩, by rw [hrisk]; rfl,
      (resolveSmugglingRun_eval _ _ (by rw [hrisk]; rfl)).1,
      (resolveSmugglingRun_eval _ _ (by rw [hrisk]; rfl)).2⟩
  · rw [h] at hrisk
    exact ⟨by rw [hrisk]; decide, ⟨0.15, 1.8⟩, by rw [hrisk]; rfl,
      (resolveSmugglingRun_eval _ _ (by rw [hrisk]; rfl)).1,
      (resolveSmugglingRun_eval _ _ (by rw [hrisk]; rfl)).2⟩
  · rw [h] at hrisk
    exact ⟨by rw [hrisk]; decide, ⟨0.30, 2.5⟩, by rw [hrisk]; rfl,
      (resolveSmugglingRun_eval _ _ (by rw [hrisk]; rfl)).1,
      (resolveSmugglingRun_eval _ _ (by rw [hrisk]; rfl)).2⟩

theorem smugglingRun_riskTier_spec_witness :
    (generateRandomSmugglingRun "R1" 0 0 0 0 0 0).risk ∈
      ["low", "medium", "high", "extreme"] ∧
    mapGet riskLevels (generateRandomSmugglingRun "R1" 0 0 0 0 0 0).risk =
      some ⟨0.05, 1.2⟩ ∧
    (1 : ℚ) > (RiskLevel.mk 0.05 1.2).interceptionChance ∧
    resolveSmugglingRun (generateRandomSmugglingRun "R1" 0 0 0 0 0 0) 1 =
      some { run := generateRandomSmugglingRun "R1" 0 0 0 0 0 0,
             success := true,
             reward := some ⌊((generateRandomSmugglingRun "R1" 0 0 0 0 0 0).value : ℚ) *
               (RiskLevel.mk 0.05 1.2).rewardMultiplier⌋,
             intercepted := false } ∧
    ¬ (0 : ℚ) > (RiskLevel.mk 0.05 1.2).interceptionChance ∧
    resolveSmugglingRun (generateRandomSmugglingRun "R1" 0 0 0 0 0 0) 0 =
      some { run := generateRandomSmugglingRun "R1" 0 0 0 0 0 0,
             success := false, reward := none, intercepted := true } := by
  obtain ⟨hm, rl, hrl, hs, hi⟩ := smugglingRun_riskTier_spec "R1" 0 0 0 0 0 0
  have hval : mapGet riskLevels (generateRandomSmugglingRun "R1" 0 0 0 0 0 0).risk =
      some ⟨0.05, 1.2⟩ := rfl
  rw [hval] at hrl
  obtain rfl : (⟨0.05, 1.2⟩ : RiskLevel) = rl := Option.some.inj hrl
  have h1 : (1 : ℚ) > (RiskLevel.mk 0.05 1.2).interceptionChance := by norm_num
  have h0 : ¬ (0 : ℚ) > (RiskLevel.mk 0.05 1.2).interceptionChance := by norm_num
  exact ⟨hm, hval, h1, hs 1 h1, h0, hi 0 h0⟩

theorem getD_mem {α : Type} [Inhabited α] (l : List α) (i : ℕ)
    (h : i < l.length) : l.getD i default ∈ l := by
  rw [List.getD_eq_getElem?_getD, List.getElem?_eq_getElem h]
  exact List.getElem_mem h

theorem manifestStep_pool (oracle : ℕ → ℕ × ℕ) (step : ℕ) (remaining : ℚ)
    (pool : List CargoType) (m : Manifest) :
    (manifestStep oracle step remaining pool m).2.1 =
      pool.eraseIdx ((oracle step).1 % pool.length) := by
  simp only [manifestStep]
  split <;> split <;> rfl

theorem manifestStep_length (oracle : ℕ → ℕ × ℕ) (step : ℕ) (remaining : ℚ)
    (pool : List CargoType) (m : Manifest) (h : pool ≠ []) :
    (manifestStep oracle step remaining pool m).2.1.length + 1 = pool.length := by
  have hlp : 0 < pool.length := List.length_pos.mpr h
  rw [manifestStep_pool,
    List.length_eraseIdx_of_lt (Nat.mod_lt _ hlp)]
  omega

theorem manifestLoopFuel_length (oracle : ℕ → ℕ × ℕ) (step : ℕ) (remaining : ℚ)
    (pool : List CargoType) (m : Manifest) :
    manifestLoopFuel oracle pool.length step remaining pool m =
      some (manifestLoop oracle step remaining pool m) := by
  induction step, remaining, pool, m using manifestLoop.induct oracle with
  | case1 step remaining pool m h s ih =>
    rw [manifestLoop, dif_pos h]
    have hl := manifestStep_length oracle step remaining pool m h.2
    rw [show pool.length = (manifestStep oracle step remaining pool m).2.1.length + 1 from hl.symm]
    rw [manifestLoopFuel, if_pos h]
    exact ih
  | case2 step remaining pool m h =>
    rw [manifestLoop, dif_neg h]
    cases hl : pool.length with
    | zero => rw [manifestLoopFuel, if_neg h]
    | succ k => rw [manifestLoopFuel, if_neg h]

theorem manifestStep_budget (oracle : ℕ → ℕ × ℕ) (step : ℕ) (remaining : ℚ)
    (pool : List CargoType) (m : Manifest) :
    (manifestStep oracle step remaining pool m).2.2.totalVolume +
      (manifestStep oracle step remaining pool m).1 =
    m.totalVolume + remaining := by
  simp only [manifestStep]
  split <;> split <;> simp

theorem manifestStep_remaining_nonneg (oracle : ℕ → ℕ × ℕ) (step : ℕ)
    (remaining : ℚ) (pool : List CargoType) (m : Manifest)
    (hvol : ∀ c ∈ pool, 0 < c.volume) (hpool : pool ≠ [])
    (hrem : 0 ≤ remaining) :
    0 ≤ (manifestStep oracle step remaining pool m).1 := by
  have hlp : 0 < pool.length := List.length_pos.mpr hpool
  have hv : 0 < (pool.getD ((oracle step).1 % pool.length) default).volume :=
    hvol _ (getD_mem _ _ (Nat.mod_lt _ hlp))
  simp only [manifestStep]
  split <;> split
  all_goals try exact hrem
  all_goals
    refine sub_nonneg.mpr ?_
    rw [mul_comm]
    refine (le_div_iff₀ hv).mp ?_
    refine le_trans ?_ (Int.floor_le _)
    exact_mod_cast le_trans (min_le_left _ _) (min_le_left _ _)

theorem manifestStep_value (oracle : ℕ → ℕ × ℕ) (step : ℕ) (remaining : ℚ)
    (pool : List CargoType) (m : Manifest)
    (h : m.totalValue = itemsValueSum m.cargo) :
    (manifestStep oracle step remaining pool m).2.2.totalValue =
      itemsValueSum (manifestStep oracle step remaining pool m).2.2.cargo := by
  simp only [manifestStep]
  split <;> split <;> simp [itemsValueSum] at h ⊢ <;> simp [h]

theorem manifestStep_products (oracle : ℕ → ℕ × ℕ) (step : ℕ) (remaining : ℚ)
    (pool : List CargoType) (m : Manifest)
    (h : ∀ it ∈ m.cargo, it.totalValue = it.unitValue * (it.quantity : ℚ)) :
    ∀ it ∈ (manifestStep oracle step remaining pool m).2.2.cargo,
      it.totalValue = it.unitValue * (it.quantity : ℚ) := by
  simp only [manifestStep]
  split <;> split
  all_goals try exact h
  all_goals
    intro it hit
    rcases List.mem_append.mp hit with hold | hnew
    · exact h it hold
    · rcases List.mem_singleton.mp hnew with rfl
      rfl

theorem manifestStep_legal (oracle : ℕ → ℕ × ℕ) (step : ℕ) (remaining : ℚ)
    (pool : List CargoType) (m : Manifest)
    (hleg : ∀ c ∈ pool, c.legality = "legal") (hpool : pool ≠ [])
    (h : ∀ it ∈ m.cargo, it.legality = "legal") :
    ∀ it ∈ (manifestStep oracle step remaining pool m).2.2.cargo,
      it.legality = "legal" := by
  have hlp : 0 < pool.length := List.length_pos.mpr hpool
  have hc : (pool.getD ((oracle step).1 % pool.length) default).legality = "legal" :=
    hleg _ (getD_mem _ _ (Nat.mod_lt _ hlp))
  simp only [manifestStep]
  split <;> split
  all_goals try exact h
  all_goals
    intro it hit
    rcases List.mem_append.mp hit with hold | hnew
    · exact h it hold
    · rcases List.mem_singleton.mp hnew with rfl
      exact hc

theorem manifestLoop_volume (oracle : ℕ → ℕ × ℕ) (step : ℕ) (remaining : ℚ)
    (pool : List CargoType) (m : Manifest)
    (hvol : ∀ c ∈ pool, 0 < c.volume) (hrem : 0 ≤ remaining) :
    (manifestLoop oracle step remaining pool m).totalVolume ≤
      m.totalVolume + remaining := by
  induction step, remaining, pool, m using manifestLoop.induct oracle with
  | case1 step remaining pool m h s ih =>
    rw [manifestLoop, dif_pos h]
    have hvol' : ∀ c ∈ (manifestStep oracle step remaining pool m).2.1,
        0 < c.volume := by
      rw [manifestStep_pool]
      exact fun c hc => hvol c (List.mem_of_mem_eraseIdx hc)
    have hrem' := manifestStep_remaining_nonneg oracle step remaining pool m
      hvol h.2 hrem
    have hbud := manifestStep_budget oracle step remaining pool m
    have ih' : (manifestLoop oracle (step + 1)
        (manifestStep oracle step remaining pool m).1
        (manifestStep oracle step remaining pool m).2.1
        (manifestStep oracle step remaining pool m).2.2).totalVolume ≤
        (manifestStep oracle step remaining pool m).2.2.totalVolume +
          (manifestStep oracle step remaining pool m).1 := ih hvol' hrem'
    show (manifestLoop oracle (step + 1)
        (manifestStep oracle step remaining pool m).1
        (manifestStep oracle step remaining pool m).2.1
        (manifestStep oracle step remaining pool m).2.2).totalVolume ≤
      m.totalVolume + remaining
    linarith [ih', hbud]
  | case2 step remaining pool m h =>
    rw [manifestLoop, dif_neg h]
    linarith [hrem]

theorem manifestLoop_value (oracle : ℕ → ℕ × ℕ) (step : ℕ) (remaining : ℚ)
    (pool : List CargoType) (m : Manifest)
    (hval : m.totalValue = itemsValueSum m.cargo) :
    (manifestLoop oracle step remaining pool m).totalValue =
      itemsValueSum (manifestLoop oracle step remaining pool m).cargo := by
  induction step, remaining, pool, m using manifestLoop.induct oracle with
  | case1 step remaining pool m h s ih =>
    rw [manifestLoop, dif_pos h]
    exact ih (manifestStep_value oracle step remaining pool m hval)
  | case2 step remaining pool m h =>
    rw [manifestLoop, dif_neg h]
    exact hval

theorem manifestLoop_products (oracle : ℕ → ℕ × ℕ) (step : ℕ) (remaining : ℚ)
    (pool : List CargoType) (m : Manifest)
    (hp : ∀ it ∈ m.cargo, it.totalValue = it.unitValue * (it.quantity : ℚ)) :
    ∀ it ∈ (manifestLoop oracle step remaining pool m).cargo,
      it.totalValue = it.unitValue * (it.quantity : ℚ) := by
  induction step, remaining, pool, m using manifestLoop.induct oracle with
  | case1 step remaining pool m h s ih =>
    rw [manifestLoop, dif_pos h]
    exact ih (manifestStep_products oracle step remaining pool m hp)
  | case2 step remaining pool m h =>
    rw [manifestLoop, dif_neg h]
    exact hp

theorem manifestLoop_legal (oracle : ℕ → ℕ × ℕ) (step : ℕ) (remaining : ℚ)
    (pool : List CargoType) (m : Manifest)
    (hleg : ∀ c ∈ pool, c.legality = "legal")
    (hm : ∀ it ∈ m.cargo, it.legality = "legal") :
    ∀ it ∈ (manifestLoop oracle step remaining pool m).cargo,
      it.legality = "legal" := by
  induction step, remaining, pool, m using manifestLoop.induct oracle with
  | case1 step remaining pool m h s ih =>
    rw [manifestLoop, dif_pos h]
    have hleg' : ∀ c ∈ (manifestStep oracle step remaining pool m).2.1,
        c.legality = "legal" := by
      rw [manifestStep_pool]
      exact fun c hc => hleg c (List.mem_of_mem_eraseIdx hc)
    exact ih hleg' (manifestStep_legal oracle step remaining pool m hleg h.2 hm)
  | case2 step remaining pool m h =>
    rw [manifestLoop, dif_neg h]
    exact hm

/-- C3: a generated manifest's `totalVolume` never exceeds the requested ship
capacity, its `totalValue` equals the sum of its line-item totals (each line
item's total being unit value times quantity), and under riskTolerance
`"low"` every line item is of a `"legal"` cargo type. -/

theorem generateCargoManifest_spec (oracle : ℕ → ℕ × ℕ) (newId : String)
    (shipCapacity : ℚ) (riskTolerance : String) (hcap : 0 ≤ shipCapacity) :
    (generateCargoManifest oracle newId shipCapacity riskTolerance).totalVolume ≤
      shipCapacity ∧
    (generateCargoManifest oracle newId shipCapacity riskTolerance).totalValue =
      itemsValueSum
        (generateCargoManifest oracle newId shipCapacity riskTolerance).cargo ∧
    (∀ it ∈ (generateCargoManifest oracle newId shipCapacity riskTolerance).cargo,
      it.totalValue = it.unitValue * (it.quantity : ℚ)) ∧
    (riskTolerance = "low" →
      ∀ it ∈ (generateCargoManifest oracle newId shipCapacity riskTolerance).cargo,
        it.legality = "legal") := by
  have hvol : ∀ c ∈ eligibleCargo riskTolerance fallbackCargoTypes,
      0 < c.volume := by
    intro c hc
    have hcm : c ∈ fallbackCargoTypes := List.mem_of_mem_filter hc
    fin_cases hcm <;> norm_num
  refine ⟨?_, ?_, ?_, ?_⟩
  · have := manifestLoop_volume oracle 0 shipCapacity
      (eligibleCargo riskTolerance fallbackCargoTypes)
      { id := newId, cargo := [], totalValue := 0, totalVolume := 0,
        riskLevel := "low" } hvol hcap
    simpa [generateCargoManifest] using this
  · exact manifestLoop_value oracle 0 shipCapacity _ _ (by simp [itemsValueSum])
  · exact manifestLoop_products oracle 0 shipCapacity _ _ (by simp)
  · intro hlow
    subst hlow
    refine manifestLoop_legal oracle 0 shipCapacity _ _ ?_ (by simp)
    intro c hc
    have hf := List.mem_filter.mp hc
    simpa using hf.2

/-- C4: the greedy manifest-generation loop terminates.  Since every iteration
removes the drawn cargo type from the draw pool, running the fuelled variant
of the loop with fuel equal to the pool size never exhausts the fuel, and the
loop is the identity once the remaining capacity is exhausted or the pool is
empty; in particular `generateCargoManifest` is reached within
`(eligibleCargo …).length` iterations. -/

theorem generateCargoManifest_terminates (oracle : ℕ → ℕ × ℕ) (newId : String)
    (shipCapacity : ℚ) (riskTolerance : String) (step : ℕ) (remaining : ℚ)
    (pool : List CargoType) (m : Manifest) :
    manifestLoopFuel oracle pool.length step remaining pool m =
      some (manifestLoop oracle step remaining pool m) ∧
    manifestLoop oracle step 0 pool m = m ∧
    manifestLoop oracle step remaining [] m = m ∧
    manifestLoopFuel oracle
        (eligibleCargo riskTolerance fallbackCargoTypes).length 0 shipCapacity
        (eligibleCargo riskTolerance fallbackCargoTypes)
        { id := newId, cargo := [], totalValue := 0, totalVolume := 0,
          riskLevel := "low" } =
      some (generateCargoManifest oracle newId shipCapacity riskTolerance) := by
  refine ⟨manifestLoopFuel_length oracle step remaining pool m, ?_, ?_,
    manifestLoopFuel_length oracle 0 shipCapacity _ _⟩
  · rw [manifestLoop]
    simp
  · rw [manifestLoop]
    simp

theorem generateCargoManifest_spec_witness :
    (0 : ℚ) ≤ 300 ∧
    ((generateCargoManifest (fun _ => (0, 0)) "M1" 300 "low").totalVolume ≤ 300 ∧
     (generateCargoManifest (fun _ => (0, 0)) "M1" 300 "low").totalValue =
       itemsValueSum (generateCargoManifest (fun _ => (0, 0)) "M1" 300 "low").cargo ∧
     (∀ it ∈ (generateCargoManifest (fun _ => (0, 0)) "M1" 300 "low").cargo,
       it.totalValue = it.unitValue * (it.quantity : ℚ)) ∧
     ("low" = "low" →
       ∀ it ∈ (generateCargoManifest (fun _ => (0, 0)) "M1" 300 "low").cargo,
         it.legality = "legal")) :=
  ⟨by norm_num,
   generateCargoManifest_spec (fun _ => (0, 0)) "M1" 300 "low" (by norm_num)⟩

theorem enumFrom_map_sum (f : ℕ → ℚ → ℚ) :
    ∀ (data : List ℚ) (k : ℕ),
      ((data.enumFrom k).map fun p => f p.1 p.2).sum =
        ∑ i in Finset.range data.length, f (k + i) (data.getD i 0)
  | [], k => by simp
  | d :: ds, k => by
    have h1 : ((ds.enumFrom (k + 1)).map fun p => f p.1 p.2).sum =
        ∑ i in Finset.range ds.length, f (k + 1 + i) (ds.getD i 0) :=
      enumFrom_map_sum f ds (k + 1)
    simp only [List.enumFrom, List.map_cons, List.sum_cons, List.length_cons]
    rw [h1, Finset.sum_range_succ']
    simp only [List.getD_cons_succ, List.getD_cons_zero, Nat.add_zero]
    rw [add_comm]
    congr 1
    refine Finset.sum_congr rfl fun i _ => ?_
    rw [show k + 1 + i = k + (i + 1) by omega]

theorem enum_map_sum (f : ℕ → ℚ → ℚ) (data : List ℚ) :
    ((data.enum.map fun p => f p.1 p.2).sum) =
      ∑ i in Finset.range data.length, f i (data.getD i 0) := by
  have := enumFrom_map_sum f data 0
  simpa using this

theorem sumX_eq (data : List ℚ) :
    (data.enum.map fun p => ((p.1 : ℚ))).sum = olsSumX data.length :=
  enum_map_sum (fun i _ => (i : ℚ)) data

theorem sumY_eq (data : List ℚ) : data.sum = olsSumY data := by
  have h := enum_map_sum (fun _ x => x) data
  have h2 : (data.enum.map fun p => p.2).sum = data.sum := by
    rw [show (fun p : ℕ × ℚ => p.2) = Prod.snd from rfl, List.enum_map_snd]
  rw [← h2]
  exact h

theorem sumXY_eq (data : List ℚ) :
    (data.enum.map fun p => p.2 * (p.1 : ℚ)).sum = olsSumXY data :=
  enum_map_sum (fun i x => x * (i : ℚ)) data

theorem sumXX_eq (data : List ℚ) :
    (data.enum.map fun p => ((p.1 : ℚ)) * ((p.1 : ℚ))).sum =
      olsSumXX data.length :=
  enum_map_sum (fun i _ => (i : ℚ) * (i : ℚ)) data

theorem predictRevenueOn_lt3 (data : List ℚ) (h : data.length < 3) :
    predictRevenueOn data = none := by
  simp [predictRevenueOn, h]

theorem predictRevenueOn_eq_ols (data : List ℚ) (h : 3 ≤ data.length) :
    predictRevenueOn data =
      some (max 0 (olsSlope data * (data.length : ℚ) + olsIntercept data)) := by
  simp only [predictRevenueOn, if_neg (not_lt.mpr h)]
  rw [sumX_eq data, sumXY_eq data, sumXX_eq data, sumY_eq data]
  rfl

theorem olsSumX_eq (n : ℕ) : olsSumX n = (n : ℚ) * ((n : ℚ) - 1) / 2 := by
  induction n with
  | zero => simp [olsSumX]
  | succ k ih =>
    rw [olsSumX, Finset.sum_range_succ, ← olsSumX, ih]
    push_cast
    ring

theorem olsSumXX_eq (n : ℕ) :
    olsSumXX n = (n : ℚ) * ((n : ℚ) - 1) * (2 * (n : ℚ) - 1) / 6 := by
  induction n with
  | zero => simp [olsSumXX]
  | succ k ih =>
    rw [olsSumXX, Finset.sum_range_succ, ← olsSumXX, ih]
    push_cast
    ring

theorem olsDenom_pos (n : ℕ) (h : 3 ≤ n) :
    0 < (n : ℚ) * olsSumXX n - olsSumX n * olsSumX n := by
  have hn : (3 : ℚ) ≤ (n : ℚ) := by exact_mod_cast h
  have key : (n : ℚ) * olsSumXX n - olsSumX n * olsSumX n =
      (n : ℚ) ^ 2 * ((n : ℚ) - 1) * ((n : ℚ) + 1) / 12 := by
    rw [olsSumX_eq, olsSumXX_eq]
    ring
  rw [key]
  have h1 : 0 < (n : ℚ) - 1 := by linarith
  have h2 : 0 < (n : ℚ) + 1 := by linarith
  have h3 : 0 < (n : ℚ) ^ 2 := by positivity
  exact div_pos (mul_pos (mul_pos h3 h1) h2) (by norm_num)

theorem ols_normal_equations (data : List ℚ) (h : 3 ≤ data.length) :
    olsSlope data * olsSumXX data.length +
        olsIntercept data * olsSumX data.length = olsSumXY data ∧
    olsSlope data * olsSumX data.length +
        olsIntercept data * (data.length : ℚ) = olsSumY data := by
  have hD : (data.length : ℚ) * olsSumXX data.length -
      olsSumX data.length * olsSumX data.length ≠ 0 :=
    ne_of_gt (olsDenom_pos data.length h)
  have hn : (data.length : ℚ) ≠ 0 := by
    have : (0 : ℚ) < (data.length : ℚ) := by exact_mod_cast by omega
    exact ne_of_gt this
  constructor
  · unfold olsIntercept olsSlope
    field_simp
    ring
  · unfold olsIntercept olsSlope
    field_simp
    ring

theorem mock_length : getHistoricalRevenue.length = 5 := rfl

theorem mock_sumX : olsSumX 5 = 10 := by
  norm_num [olsSumX, Finset.sum_range_succ]

theorem mock_sumXX : olsSumXX 5 = 30 := by
  norm_num [olsSumXX, Finset.sum_range_succ]

theorem mock_sumY : olsSumY getHistoricalRevenue = 235000 := by
  norm_num [olsSumY, getHistoricalRevenue, Finset.sum_range_succ]

theorem mock_sumXY : olsSumXY getHistoricalRevenue = 526000 := by
  norm_num [olsSumXY, getHistoricalRevenue, Finset.sum_range_succ]

theorem mock_slope : olsSlope getHistoricalRevenue = 5600 := by
  unfold olsSlope
  rw [mock_length, mock_sumX, mock_sumXX, mock_sumY, mock_sumXY]
  norm_num

theorem mock_intercept : olsIntercept getHistoricalRevenue = 35800 := by
  unfold olsIntercept
  rw [mock_length, mock_sumX, mock_sumY, mock_slope]
  norm_num

theorem predictRevenue_mock : predictRevenue = some 63800 := by
  rw [predictRevenue, predictRevenueOn_eq_ols getHistoricalRevenue
    (by rw [mock_length]; omega), mock_length, mock_slope, mock_intercept]
  norm_num

/-- C5: revenue forecasting with fewer than 3 historical points returns
"unavailable" (`null`); with 3 or more points it returns
`max(0, slope*n + intercept)` where slope and intercept are the closed-form
ordinary-least-squares fit of revenue against period index `0..n-1` (they
satisfy the least-squares normal equations); and on the retained series
[35000, 42000, 48000, 52000, 58000] the predicted next value is 63800 ≥
58000. -/

theorem predictRevenue_spec :
    (∀ data : List ℚ, data.length < 3 → predictRevenueOn data = none) ∧
    (∀ data : List ℚ, 3 ≤ data.length →
      predictRevenueOn data =
        some (max 0 (olsSlope data * (data.length : ℚ) + olsIntercept data)) ∧
      olsSlope data * olsSumXX data.length +
          olsIntercept data * olsSumX data.length = olsSumXY data ∧
      olsSlope data * olsSumX data.length +
          olsIntercept data * (data.length : ℚ) = olsSumY data) ∧
    predictRevenue = some 63800 ∧
    (58000 : ℚ) ≤ 63800 :=
  ⟨predictRevenueOn_lt3,
   fun data h => ⟨predictRevenueOn_eq_ols data h,
     (ols_normal_equations data h).1, (ols_normal_equations data h).2⟩,
   predictRevenue_mock, by norm_num⟩

theorem predictRevenue_spec_witness :
    ([(1 : ℚ), 2] : List ℚ).length < 3 ∧
    predictRevenueOn [(1 : ℚ), 2] = none ∧
    3 ≤ getHistoricalRevenue.length ∧
    (predictRevenueOn getHistoricalRevenue =
      some (max 0 (olsSlope getHistoricalRevenue *
        (getHistoricalRevenue.length : ℚ) + olsIntercept getHistoricalRevenue)) ∧
     olsSlope getHistoricalRevenue * olsSumXX getHistoricalRevenue.length +
        olsIntercept getHistoricalRevenue * olsSumX getHistoricalRevenue.length =
          olsSumXY getHistoricalRevenue ∧
     olsSlope getHistoricalRevenue * olsSumX getHistoricalRevenue.length +
        olsIntercept getHistoricalRevenue * (getHistoricalRevenue.length : ℚ) =
          olsSumY getHistoricalRevenue) :=
  ⟨by norm_num, predictRevenue_spec.1 [(1 : ℚ), 2] (by norm_num),
   by norm_num [getHistoricalRevenue],
   predictRevenue_spec.2.1 getHistoricalRevenue
     (by norm_num [getHistoricalRevenue])⟩
